import Mathlib

/-!
Verification of the ReplayGameInfo OBS plugin (`ReplayGameInfo.py`).

The script registers a frontend event callback; on a "replay buffer saved"
event it resolves the foreground window's title and owning executable, and
(on a background thread) writes a `.gameinfo` JSON sidecar next to the
recording and extracts the executable's icon to a PNG.

The shallow embedding below models the file system as an explicit state
(directories plus a file map), OS-level failure and icon-extraction success
as oracles (`Env`), and the handful of `os.path` (ntpath) operations the
script uses as pure string functions.  Python exceptions are modelled with
`Except`: an `.error` carries the state at the raise point, and the
handler's outer `try/except` catches it.
-/

namespace ReplayGameInfo

/-! ### `os.path` (ntpath) string helpers -/

/-- Windows path separators (`sep` and `altsep` of `ntpath`). -/
def isSep (c : Char) : Bool := c == '\\' || c == '/'

/-- `os.path.basename`: the part of the path after the last separator. -/
def basename (p : String) : String :=
  String.mk ((p.data.reverse.takeWhile (fun c => !isSep c)).reverse)

/-- `os.path.dirname`: the part before the last separator, with trailing
separators stripped unless the head consists only of separators. -/
def dirname (p : String) : String :=
  let rev := p.data.reverse.dropWhile (fun c => !isSep c)
  let stripped := rev.dropWhile isSep
  String.mk (if stripped.isEmpty then rev.reverse else stripped.reverse)

/-- Whether `ntpath.join` inserts a separator after `a` before appending a
relative component: yes iff `a` is nonempty and does not already end in a
separator or a drive colon. -/
def needsSep (a : String) : Bool :=
  match a.data.getLast? with
  | none => false
  | some c => !(isSep c || c == ':')

/-- `os.path.join` for a relative, drive-less second component (the only way
the script uses it). -/
def ntJoin (a b : String) : String :=
  if needsSep a then a ++ "\\" ++ b else a ++ b

/-- Index of the last character satisfying `pred`, if any. -/
def rfindIdx (pred : Char → Bool) (l : List Char) : Option Nat :=
  match l.reverse.findIdx? pred with
  | none => none
  | some j => some (l.length - 1 - j)

/-- The root part of `os.path.splitext`: split at the last dot, provided it
comes after the last separator and the characters between the separator and
that dot are not all dots (CPython's leading-dots rule, which keeps
`.bashrc` whole). -/
def splitextStem (p : String) : String :=
  let l := p.data
  let sepIdx : Int := match rfindIdx isSep l with | none => -1 | some i => (i : Int)
  let dotIdx : Int := match rfindIdx (fun c => c == '.') l with | none => -1 | some i => (i : Int)
  if sepIdx < dotIdx then
    if (List.range (dotIdx.toNat - (sepIdx + 1).toNat)).any
        (fun k => l.getD ((sepIdx + 1).toNat + k) '.' != '.') then
      String.mk (l.take dotIdx.toNat)
    else p
  else p

/-- Python's `str.lower`, character by character (every name involved is
ASCII, where `Char.toLower` agrees with Python). -/
def pyLower (s : String) : String := String.mk (s.data.map Char.toLower)

/-! ### The static executable denylist (transcribed from the script) -/

def windowsSystemApps : List String := [
  "explorer.exe", "SystemSettings.exe", "SearchUI.exe", "ShellExperienceHost.exe",
  "StartMenuExperienceHost.exe", "Taskmgr.exe", "SnippingTool.exe", "SnipAndSketch.exe",
  "Magnify.exe", "Narrator.exe", "osk.exe", "MSPaint.exe", "notepad.exe", "winver.exe",
  "calc.exe", "mspaint.exe", "winword.exe", "excel.exe", "powerpnt.exe", "OneNote.exe",
  "regedit.exe", "cmd.exe", "powershell.exe", "WindowsTerminal.exe", "wt.exe",
  "conhost.exe", "mmc.exe", "control.exe", "rundll32.exe", "CompMgmtLauncher.exe",
  "ApplicationFrameHost.exe", "RuntimeBroker.exe", "taskschd.msc", "eventvwr.msc",
  "perfmon.exe", "dfrgui.exe", "OptionalFeatures.exe", "SystemPropertiesComputerName.exe",
  "TaskSchd.exe", "schtasks.exe", "services.msc", "devmgmt.msc", "diskmgmt.msc",
  "compmgmt.msc", "gpedit.msc", "secpol.msc", "Msinfo32.exe", "dxdiag.exe",
  "wscript.exe", "cscript.exe", "mrt.exe", "SearchApp.exe", "LockApp.exe",
  "ctfmon.exe", "sihost.exe", "BackgroundTaskHost.exe", "SettingSyncHost.exe",
  "YourPhone.exe", "PhoneExperienceHost.exe", "FilePickerHost.exe", "PickerHost.exe",
  "smartscreen.exe", "WerFault.exe", "cleanmgr.exe", "certmgr.msc", "wf.msc"]

def archiveToolsAndFileManagers : List String := [
  "7zFM.exe", "WinRAR.exe", "WinZip32.exe", "PeaZip.exe", "TotalCmd.exe",
  "FreeCommander.exe", "Q-Dir.exe", "MultiCommander.exe", "Everything.exe",
  "TreeSizeFree.exe"]

def installerAndLauncherApps : List String := [
  "setup.exe", "uninstall.exe", "msiexec.exe", "dxsetup.exe", "installshield.exe",
  "bootstrapper.exe", "update.exe", "unins000.exe"]

def virtualizationApps : List String := [
  "vmware.exe", "vmware-vmx.exe", "VirtualBox.exe", "vboxheadless.exe",
  "vboxmanage.exe", "mstsc.exe", "TeamViewer.exe"]

def antivirusAndCleanerApps : List String := [
  "AvastUI.exe", "avgui.exe", "msmpeng.exe", "SecurityHealthSystray.exe",
  "Malwarebytes.exe", "CCleaner.exe", "AdwCleaner.exe", "NortonSecurity.exe",
  "McUICnt.exe"]

def debuggingAndDevTools : List String := [
  "Procmon.exe", "ProcessHacker.exe", "ProcessExplorer.exe", "Autoruns.exe",
  "VMMap.exe", "windbg.exe", "OllyDbg.exe", "x64dbg.exe", "DependencyWalker.exe",
  "HxD.exe"]

def printerScannerApps : List String := [
  "FaxConsole.exe", "PrintDialog.exe", "printmanagement.msc", "HPScan.exe",
  "CanonIJ.exe", "EpsonScan.exe"]

def accessories : List String := [
  "wordpad.exe", "write.exe", "charmap.exe", "stikynot.exe", "XpsRchVw.exe",
  "hh.exe", "MobilityCenter.exe"]

def ignoredExecutables : List String :=
  windowsSystemApps ++ archiveToolsAndFileManagers ++ installerAndLauncherApps ++
  virtualizationApps ++ antivirusAndCleanerApps ++ debuggingAndDevTools ++
  printerScannerApps ++ accessories

/-- Lower-cased denylist, for case-insensitive membership tests
(the script builds a `set`; membership semantics are the same). -/
def ignoredExecutables_lower : List String := ignoredExecutables.map pyLower

/-! ### JSON values, file contents, file-system state -/

/-- The fragment of JSON the script produces: the `.gameinfo` dict has string
values only. -/
inductive Json where
  | str : String → Json
  | obj : List (String × Json) → Json

/-- Contents of a file in the modelled file system: a PNG produced by icon
extraction (tagged with the executable it came from), or a serialized JSON
document written by `json.dump`. -/
inductive FileContent where
  | png : String → FileContent
  | jsonFile : Json → FileContent

/-- The file system: a set of directories and a map from paths to file
contents (first match wins, so consing overwrites). -/
structure FS where
  dirs : List String
  files : List (String × FileContent)

/-- Full observable state of a run: the file system plus audit logs of the
icon-extraction invocations and the `.gameinfo` writes performed. -/
structure St where
  fs : FS
  extractCalls : List (String × String)
  writes : List (String × Json)

/-- Oracles for the OS-level outcomes the script cannot control:
`osFault p` says an OS call touching path `p` (makedirs / open) raises, and
`extractOk exe out` says the PowerShell icon extraction subprocess succeeds. -/
structure Env where
  osFault : String → Bool
  extractOk : String → String → Bool

/-- `os.makedirs(d, exist_ok=True)`: never fails merely because `d` exists;
OS-level failure is the oracle's call. -/
def makedirs (env : Env) (d : String) (fs : FS) : Except Unit FS :=
  if env.osFault d then .error ()
  else if d ∈ fs.dirs then .ok fs
  else .ok { fs with dirs := d :: fs.dirs }

/-- Create or overwrite the file at `p`. -/
def setFile (fs : FS) (p : String) (c : FileContent) : FS :=
  { fs with files := (p, c) :: fs.files }

/-- `os.path.isfile`. -/
def isfile (fs : FS) (p : String) : Bool := (fs.files.lookup p).isSome

/-- Python truthiness of an `Optional[str]`: `None` and `""` are falsy. -/
def truthy : Option String → Bool
  | none => false
  | some s => s != ""

/-- `extract_icon(exe_path, out_path)`: records the invocation, and on
subprocess success writes the PNG at `out_path`.  All subprocess errors are
caught inside, so it returns a `Bool` and never raises. -/
def extract_icon (env : Env) (exe_path out_path : String) (st : St) : Bool × St :=
  let st' : St := { st with extractCalls := st.extractCalls ++ [(exe_path, out_path)] }
  if env.extractOk exe_path out_path then
    (true, { st' with fs := setFile st'.fs out_path (.png exe_path) })
  else
    (false, st')

/-! ### The per-recording handler -/

/-- `icons_dir = os.path.join(os.path.dirname(recording_path), "icons")`. -/
def iconsDir (r : String) : String := ntJoin (dirname r) "icons"

/-- `metadata_dir = os.path.join(os.path.dirname(recording_path), ".clip_metadata")`. -/
def metadataDir (r : String) : String := ntJoin (dirname r) ".clip_metadata"

/-- `gameinfo_path = os.path.join(metadata_dir, os.path.basename(recording_path) + ".gameinfo")`. -/
def gameinfoPath (r : String) : String := ntJoin (metadataDir r) (basename r ++ ".gameinfo")

/-- `icon_filename = f"{os.path.splitext(os.path.basename(exe_path))[0]}.png"`. -/
def iconFilenameOf (exe : String) : String := splitextStem (basename exe) ++ ".png"

/-- `icon_path = os.path.join(icons_dir, icon_filename)`. -/
def iconPath (r exe : String) : String := ntJoin (iconsDir r) (iconFilenameOf exe)

/-- The dict literal `{"window_title": ..., "icon_file": ...}`. -/
def mkInfo (wt icf : String) : Json :=
  .obj [("window_title", .str wt), ("icon_file", .str icf)]

/-- The value of `icon_filename or ""` stored under `"icon_file"`:
the icon filename when the executable path is truthy, else the empty
string. -/
def iconFileField (e : Option String) : String :=
  if truthy e then iconFilenameOf (e.getD "") else ""

/-- The icon section of the handler: when the executable path is truthy,
skip if the icon file is already cached, otherwise call `extract_icon`
(whose return value the script ignores). -/
def iconStep (env : Env) (r : String) (e : Option String) (st : St) : St :=
  if truthy e then
    if isfile st.fs (iconPath r (e.getD "")) then st
    else (extract_icon env (e.getD "") (iconPath r (e.getD "")) st).2
  else st

/-- The body of `handle_replay_saved` (the part inside its `try`).
An `.error st` result means a Python exception was raised with the state
at that point; `.ok st` means the body ran to completion. -/
def handle_body (env : Env) (r w : String) (e : Option String) (st : St) : Except St St :=
  if truthy e && ignoredExecutables_lower.contains (pyLower (basename (e.getD ""))) then
    .ok st
  else
    match makedirs env (iconsDir r) st.fs with
    | .error _ => .error st
    | .ok fs1 =>
      match makedirs env (metadataDir r) fs1 with
      | .error _ => .error { st with fs := fs1 }
      | .ok fs2 =>
        let st3 : St := iconStep env r e { st with fs := fs2 }
        if env.osFault (gameinfoPath r) then .error st3
        else .ok { st3 with
          fs := setFile st3.fs (gameinfoPath r) (.jsonFile (mkInfo w (iconFileField e))),
          writes := st3.writes ++ [(gameinfoPath r, mkInfo w (iconFileField e))] }

/-- What a caller of `handle_replay_saved` observes: the resulting state and
whether an exception propagated out of the function. -/
structure CallResult where
  state : St
  raised : Bool

/-- `handle_replay_saved`: the body wrapped in `try ... except Exception`,
which logs and swallows any exception (`debug` itself cannot raise: its one
fallible call is wrapped in an inner `try`). -/
def handle_replay_saved (env : Env) (r w : String) (e : Option String) (st : St) : CallResult :=
  match handle_body env r w e st with
  | .ok st' => ⟨st', false⟩
  | .error st' => ⟨st', false⟩

/-! ### OBS event plumbing -/

/-- Frontend events: the replay-buffer-saved event the script reacts to, and
everything else. -/
inductive ObsEvent where
  | replayBufferSaved
  | other : Nat → ObsEvent
deriving DecidableEq

/-- Oracles for the OBS/Win32 context at event time: the last replay path
(`None` when absent), the foreground window handle (`0` meaning none), the
window title per handle, whether `OpenProcess` succeeds, and the module file
name buffer `GetModuleFileNameExW` fills (possibly empty). -/
structure ObsEnv where
  lastReplay : Option String
  foregroundHwnd : Nat
  windowTitle : Nat → String
  openProcessOk : Nat → Bool
  moduleFileName : Nat → String

/-- `get_foreground_window_info`: `("", None)` when there is no foreground
window, else the title and handle. -/
def get_foreground_window_info (o : ObsEnv) : String × Option Nat :=
  if o.foregroundHwnd = 0 then ("", none)
  else (o.windowTitle o.foregroundHwnd, some o.foregroundHwnd)

/-- `_get_executable_from_hwnd`: `None` when `OpenProcess` fails or the
buffer comes back empty. -/
def get_executable_from_hwnd (o : ObsEnv) (hwnd : Nat) : Option String :=
  if o.openProcessOk hwnd then
    let v := o.moduleFileName hwnd
    if v = "" then none else some v
  else none

/-- `replay_buffer_event_cb`: reacts only to the replay-buffer-saved event,
returns early on a falsy last-replay path, substitutes "Unknown Window" for
an empty title, and runs the handler (on a fire-and-forget thread, modelled
as running to completion). -/
def replay_buffer_event_cb (o : ObsEnv) (env : Env) (event : ObsEvent) (st : St) : St :=
  match event with
  | .replayBufferSaved =>
    match o.lastReplay with
    | none => st
    | some rp =>
      if rp = "" then st
      else
        let info := get_foreground_window_info o
        let wt := if info.1 = "" then "Unknown Window" else info.1
        let e := match info.2 with
          | some h => get_executable_from_hwnd o h
          | none => none
        (handle_replay_saved env rp wt e st).state
  | .other _ => st

/-! ### Helper definitions and lemmas -/

/-- The state a caller sees after `try body except: pass`-style handling:
the body's final state whether or not it raised. -/
def resultState : Except St St → St
  | .ok s => s
  | .error s => s

/-- If the directory is absent it is added, otherwise the list is unchanged:
the effect of a successful `makedirs` on the directory set. -/
def addDir (d : String) (l : List String) : List String :=
  if d ∈ l then l else d :: l

theorem handle_state_eq (env : Env) (r w : String) (e : Option String) (st : St) :
    (handle_replay_saved env r w e st).state = resultState (handle_body env r w e st) := by
  unfold handle_replay_saved
  cases handle_body env r w e st <;> rfl

theorem handle_raised_false (env : Env) (r w : String) (e : Option String) (st : St) :
    (handle_replay_saved env r w e st).raised = false := by
  unfold handle_replay_saved
  cases handle_body env r w e st <;> rfl

theorem makedirs_noFault (env : Env) (d : String) (fs : FS) (h : env.osFault d = false) :
    makedirs env d fs = .ok ⟨addDir d fs.dirs, fs.files⟩ := by
  unfold makedirs addDir
  rw [h]
  split
  · next hh => exact absurd hh (by simp)
  · split <;> rfl

theorem makedirs_files (env : Env) (d : String) (fs fs' : FS)
    (h : makedirs env d fs = .ok fs') : fs'.files = fs.files := by
  unfold makedirs at h
  split at h
  · exact absurd h (by simp)
  · split at h <;> · cases h; rfl

theorem iconStep_writes (env : Env) (r : String) (e : Option String) (st : St) :
    (iconStep env r e st).writes = st.writes := by
  unfold iconStep extract_icon
  split <;> try rfl
  split <;> try rfl
  split <;> rfl

theorem iconStep_dirs (env : Env) (r : String) (e : Option String) (st : St) :
    (iconStep env r e st).fs.dirs = st.fs.dirs := by
  unfold iconStep extract_icon setFile
  split <;> try rfl
  split <;> try rfl
  split <;> rfl

theorem iconStep_calls (env : Env) (r : String) (e : Option String) (st : St) :
    (iconStep env r e st).extractCalls = st.extractCalls ∨
    (truthy e = true ∧ (iconStep env r e st).extractCalls
        = st.extractCalls ++ [(e.getD "", iconPath r (e.getD ""))]) := by
  unfold iconStep extract_icon
  split
  · split
    · exact Or.inl rfl
    · next he _ => split <;> exact Or.inr ⟨he, rfl⟩
  · exact Or.inl rfl

theorem iconStep_cached (env : Env) (r : String) (e : Option String) (st : St)
    (he : truthy e = true) (hc : isfile st.fs (iconPath r (e.getD "")) = true) :
    iconStep env r e st = st := by
  unfold iconStep
  rw [he, hc]
  rfl

theorem handle_state_writes (env : Env) (r w : String) (e : Option String) (st : St) :
    (handle_replay_saved env r w e st).state.writes = st.writes ∨
    (handle_replay_saved env r w e st).state.writes
      = st.writes ++ [(gameinfoPath r, mkInfo w (iconFileField e))] := by
  rw [handle_state_eq]
  simp only [handle_body]
  split
  · exact Or.inl rfl
  · split
    · exact Or.inl rfl
    · split
      · exact Or.inl rfl
      · split
        · exact Or.inl (iconStep_writes ..)
        · exact Or.inr (by simp [resultState, iconStep_writes])

theorem handle_state_calls (env : Env) (r w : String) (e : Option String) (st : St) :
    (handle_replay_saved env r w e st).state.extractCalls = st.extractCalls ∨
    (truthy e = true ∧ (handle_replay_saved env r w e st).state.extractCalls
        = st.extractCalls ++ [(e.getD "", iconPath r (e.getD ""))]) := by
  rw [handle_state_eq]
  simp only [handle_body]
  split
  · exact Or.inl rfl
  · split
    · exact Or.inl rfl
    · split
      · exact Or.inl rfl
      · split
        · exact iconStep_calls ..
        · rcases iconStep_calls env r e _ with h | ⟨ht, h⟩
          · exact Or.inl (by simpa [resultState] using h)
          · exact Or.inr ⟨ht, by simpa [resultState] using h⟩

theorem str_append_getLast (a b : String) (hb : b.data ≠ []) :
    (a ++ b).data.getLast? = b.data.getLast? := by
  rw [String.data_append]
  exact List.getLast?_append_of_ne_nil _ hb

theorem ntJoin_getLast (a b : String) (hb : b.data ≠ []) :
    (ntJoin a b).data.getLast? = b.data.getLast? := by
  unfold ntJoin
  split
  · exact str_append_getLast _ _ hb
  · exact str_append_getLast _ _ hb

theorem app_gameinfo_ne_nil (s : String) : (s ++ ".gameinfo").data ≠ [] := by
  rw [String.data_append]
  simp

theorem app_png_ne_nil (s : String) : (s ++ ".png").data ≠ [] := by
  rw [String.data_append]
  simp

theorem gameinfoPath_getLast (r : String) :
    (gameinfoPath r).data.getLast? = some 'o' := by
  unfold gameinfoPath
  rw [ntJoin_getLast _ _ (app_gameinfo_ne_nil _), str_append_getLast _ _ (by decide)]
  decide

theorem iconPath_getLast (r exe : String) :
    (iconPath r exe).data.getLast? = some 'g' := by
  unfold iconPath iconFilenameOf
  rw [ntJoin_getLast _ _ (app_png_ne_nil _), str_append_getLast _ _ (by decide)]
  decide

theorem gameinfoPath_ne_iconPath (r exe : String) : gameinfoPath r ≠ iconPath r exe := by
  intro h
  have h1 := gameinfoPath_getLast r
  rw [h, iconPath_getLast] at h1
  exact absurd h1 (by decide)

theorem setFile_dirs (fs : FS) (p : String) (c : FileContent) :
    (setFile fs p c).dirs = fs.dirs := rfl

theorem handle_state_dirs (env : Env) (r w : String) (e : Option String) (st : St)
    (hio : env.osFault (iconsDir r) = false) (hmo : env.osFault (metadataDir r) = false) :
    (handle_replay_saved env r w e st).state.fs.dirs =
      if truthy e && ignoredExecutables_lower.contains (pyLower (basename (e.getD ""))) then
        st.fs.dirs
      else addDir (metadataDir r) (addDir (iconsDir r) st.fs.dirs) := by
  rw [handle_state_eq]
  simp only [handle_body]
  split
  · rfl
  · split
    · next heq =>
        rw [makedirs_noFault env (iconsDir r) st.fs hio] at heq
        cases heq
    · next fs1 heq =>
        rw [makedirs_noFault env (iconsDir r) st.fs hio] at heq
        injection heq with h1
        subst h1
        split
        · next heq2 =>
            rw [makedirs_noFault env (metadataDir r) _ hmo] at heq2
            cases heq2
        · next fs2 heq2 =>
            rw [makedirs_noFault env (metadataDir r) _ hmo] at heq2
            injection heq2 with h2
            subst h2
            split
            · simp [resultState, iconStep_dirs]
            · simp [resultState, iconStep_dirs, setFile_dirs]

theorem addDir_mem_self (d : String) (l : List String) : d ∈ addDir d l := by
  unfold addDir
  split
  · assumption
  · exact List.mem_cons_self _ _

theorem addDir_mem_mono (d x : String) (l : List String) (h : x ∈ l) : x ∈ addDir d l := by
  unfold addDir
  split
  · exact h
  · exact List.mem_cons_of_mem _ h

theorem addDir_eq_of_mem (d : String) (l : List String) (h : d ∈ l) : addDir d l = l := by
  unfold addDir
  rw [if_pos h]

theorem lookup_cons_ne {β : Type} (k k' : String) (v : β) (l : List (String × β))
    (h : k ≠ k') : List.lookup k ((k', v) :: l) = List.lookup k l := by
  have hb : (k == k') = false := beq_eq_false_iff_ne.mpr h
  simp [List.lookup, hb]

/-! ### Concrete fixtures for witnesses -/

/-- An environment with no OS faults and successful icon extraction. -/
def envOk : Env := ⟨fun _ => false, fun _ _ => true⟩

/-- An environment with no OS faults where icon extraction always fails. -/
def envNoIcon : Env := ⟨fun _ => false, fun _ _ => false⟩

/-- The empty starting state. -/
def emptySt : St := ⟨⟨[], []⟩, [], []⟩

/-- An OBS context with no last replay and no foreground window. -/
def obsNone : ObsEnv := ⟨none, 0, fun _ => "", fun _ => false, fun _ => ""⟩

/-- An OBS context with a saved replay but no foreground window. -/
def obsNoWindow : ObsEnv := ⟨some "D:\\clips\\a.mp4", 0, fun _ => "", fun _ => false, fun _ => ""⟩

/-- A starting state with the icon for `game.exe` already cached. -/
def cachedSt : St :=
  ⟨⟨[], [("D:\\clips\\icons\\game.png", FileContent.png "previous")]⟩, [], []⟩

/-- A starting state in which the icons directory already exists. -/
def dirSt : St := ⟨⟨["D:\\clips\\icons"], []⟩, [], []⟩

/-! ### Claims -/

/-- Claim C1: whenever the owning executable path is present (truthy) and its
base name, lower-cased, is in the fixed denylist, `handle_replay_saved`
returns with the state completely unchanged — no `.gameinfo` write, no
directory creation, no icon extraction — and no exception. -/
theorem denylisted_exe_state_unchanged (env : Env) (r w : String) (e : Option String) (st : St)
    (he : truthy e = true)
    (hd : ignoredExecutables_lower.contains (pyLower (basename (e.getD ""))) = true) :
    handle_replay_saved env r w e st = ⟨st, false⟩ := by
  unfold handle_replay_saved handle_body
  rw [he, hd]
  rfl

/-- Witness for C1 at a concrete denylisted executable (`explorer.exe`). -/
theorem denylisted_exe_state_unchanged_witness :
    truthy (some "C:\\Windows\\explorer.exe") = true ∧
    ignoredExecutables_lower.contains (pyLower (basename "C:\\Windows\\explorer.exe")) = true ∧
    handle_replay_saved envOk "D:\\clips\\a.mp4" "Title" (some "C:\\Windows\\explorer.exe") emptySt
      = ⟨emptySt, false⟩ :=
  ⟨rfl, rfl, denylisted_exe_state_unchanged envOk "D:\\clips\\a.mp4" "Title"
      (some "C:\\Windows\\explorer.exe") emptySt rfl rfl⟩

/-- Claim C5: every error arising inside the replay-saved handling path is
caught and swallowed: for every input the handler returns normally and never
propagates an exception to the caller. -/
theorem handler_swallows_all_errors (env : Env) (r w : String) (e : Option String) (st : St) :
    (handle_replay_saved env r w e st).raised = false :=
  handle_raised_false env r w e st

/-- Claim C10: for any host event other than replay-buffer-saved, and for a
saved event whose last-replay path is missing or empty, the event callback
leaves the state untouched: no directories created, no icon or `.gameinfo`
file written. -/
theorem non_save_events_no_effects (o : ObsEnv) (env : Env) (event : ObsEvent) (st : St)
    (h : event ≠ ObsEvent.replayBufferSaved ∨ o.lastReplay = none ∨ o.lastReplay = some "") :
    replay_buffer_event_cb o env event st = st := by
  unfold replay_buffer_event_cb
  cases event with
  | other n => rfl
  | replayBufferSaved =>
    rcases h with h | h | h
    · exact absurd rfl h
    · rw [h]
    · rw [h]
      rfl

/-- Witness for C10 at a concrete non-save event. -/
theorem non_save_events_no_effects_witness :
    ObsEvent.other 0 ≠ ObsEvent.replayBufferSaved ∧
    replay_buffer_event_cb obsNone envOk (ObsEvent.other 0) emptySt = emptySt :=
  ⟨by decide, non_save_events_no_effects obsNone envOk (ObsEvent.other 0) emptySt
      (Or.inl (by decide))⟩

/-- Claim C2: every `.gameinfo` record the handler writes is a JSON object
containing exactly the two keys "window_title" and "icon_file", in that
order, both with string values and nothing else. -/
theorem gameinfo_exactly_two_keys (env : Env) (r w : String) (e : Option String) (st : St)
    (p : String) (j : Json)
    (h : (p, j) ∈ (handle_replay_saved env r w e st).state.writes) :
    (p, j) ∈ st.writes ∨
    ∃ wt icf, j = Json.obj [("window_title", Json.str wt), ("icon_file", Json.str icf)] := by
  rcases handle_state_writes env r w e st with hw | hw
  · rw [hw] at h
    exact Or.inl h
  · rw [hw] at h
    rcases List.mem_append.mp h with h | h
    · exact Or.inl h
    · exact Or.inr ⟨w, iconFileField e, (Prod.ext_iff.mp (List.mem_singleton.mp h)).2⟩

/-- Witness for C2: a concrete run writes one record and it has exactly the
two keys. -/
theorem gameinfo_exactly_two_keys_witness :
    (("D:\\clips\\.clip_metadata\\a.mp4.gameinfo", mkInfo "Title" "") ∈
      (handle_replay_saved envOk "D:\\clips\\a.mp4" "Title" none emptySt).state.writes) ∧
    ((("D:\\clips\\.clip_metadata\\a.mp4.gameinfo", mkInfo "Title" "") ∈ emptySt.writes) ∨
      ∃ wt icf, mkInfo "Title" ""
        = Json.obj [("window_title", Json.str wt), ("icon_file", Json.str icf)]) := by
  have h : ("D:\\clips\\.clip_metadata\\a.mp4.gameinfo", mkInfo "Title" "") ∈
      (handle_replay_saved envOk "D:\\clips\\a.mp4" "Title" none emptySt).state.writes :=
    List.Mem.head _
  exact ⟨h, gameinfo_exactly_two_keys envOk "D:\\clips\\a.mp4" "Title" none emptySt _ _ h⟩

/-- Claim C6: every metadata record the handler writes goes into the
`.clip_metadata` directory sibling to the recording, named by the
recording's base name with the suffix `.gameinfo` appended. -/
theorem gameinfo_written_in_metadata_dir (env : Env) (r w : String) (e : Option String) (st : St)
    (p : String) (j : Json)
    (h : (p, j) ∈ (handle_replay_saved env r w e st).state.writes) :
    (p, j) ∈ st.writes ∨
    p = ntJoin (ntJoin (dirname r) ".clip_metadata") (basename r ++ ".gameinfo") := by
  rcases handle_state_writes env r w e st with hw | hw
  · rw [hw] at h
    exact Or.inl h
  · rw [hw] at h
    rcases List.mem_append.mp h with h | h
    · exact Or.inl h
    · exact Or.inr ((Prod.ext_iff.mp (List.mem_singleton.mp h)).1)

/-- Witness for C6: the concrete run's record lands at
`<dir>\.clip_metadata\<basename>.gameinfo`. -/
theorem gameinfo_written_in_metadata_dir_witness :
    (("D:\\clips\\.clip_metadata\\a.mp4.gameinfo", mkInfo "Title" "") ∈
      (handle_replay_saved envOk "D:\\clips\\a.mp4" "Title" none emptySt).state.writes) ∧
    ((("D:\\clips\\.clip_metadata\\a.mp4.gameinfo", mkInfo "Title" "") ∈ emptySt.writes) ∨
      "D:\\clips\\.clip_metadata\\a.mp4.gameinfo"
        = ntJoin (ntJoin (dirname "D:\\clips\\a.mp4") ".clip_metadata")
            (basename "D:\\clips\\a.mp4" ++ ".gameinfo")) := by
  have h : ("D:\\clips\\.clip_metadata\\a.mp4.gameinfo", mkInfo "Title" "") ∈
      (handle_replay_saved envOk "D:\\clips\\a.mp4" "Title" none emptySt).state.writes :=
    List.Mem.head _
  exact ⟨h, gameinfo_written_in_metadata_dir envOk "D:\\clips\\a.mp4" "Title" none emptySt _ _ h⟩

/-- Claim C9: if at event time there is no foreground window, or the
foreground window's title is empty, then every `.gameinfo` record written by
the replay-buffer-saved callback carries the window title
"Unknown Window". -/
theorem missing_window_title_unknown (o : ObsEnv) (env : Env) (ev : ObsEvent) (st : St)
    (hw : o.foregroundHwnd = 0 ∨ o.windowTitle o.foregroundHwnd = "") :
    ∀ p j, (p, j) ∈ (replay_buffer_event_cb o env ev st).writes →
      (p, j) ∈ st.writes ∨ ∃ icf, j = mkInfo "Unknown Window" icf := by
  intro p j h
  unfold replay_buffer_event_cb at h
  cases ev with
  | other n => exact Or.inl h
  | replayBufferSaved =>
    cases hlr : o.lastReplay with
    | none =>
      simp only [hlr] at h
      exact Or.inl h
    | some rp =>
      simp only [hlr] at h
      by_cases hrp : rp = ""
      · rw [if_pos hrp] at h
        exact Or.inl h
      · rw [if_neg hrp] at h
        have hwt : (if (get_foreground_window_info o).1 = "" then "Unknown Window"
            else (get_foreground_window_info o).1) = "Unknown Window" := by
          rcases hw with h0 | ht
          · simp [get_foreground_window_info, h0]
          · by_cases h0 : o.foregroundHwnd = 0
            · simp [get_foreground_window_info, h0]
            · simp [get_foreground_window_info, h0, ht]
        rw [hwt] at h
        rcases handle_state_writes env rp "Unknown Window" _ st with hww | hww
        · rw [hww] at h
          exact Or.inl h
        · rw [hww] at h
          rcases List.mem_append.mp h with h | h
          · exact Or.inl h
          · exact Or.inr ⟨_, (Prod.ext_iff.mp (List.mem_singleton.mp h)).2⟩

/-- Witness for C9: with no foreground window, the concrete run's record has
window title "Unknown Window". -/
theorem missing_window_title_unknown_witness :
    (obsNoWindow.foregroundHwnd = 0 ∨ obsNoWindow.windowTitle obsNoWindow.foregroundHwnd = "") ∧
    (∀ p j, (p, j) ∈ (replay_buffer_event_cb obsNoWindow envOk ObsEvent.replayBufferSaved
        emptySt).writes →
      (p, j) ∈ emptySt.writes ∨ ∃ icf, j = mkInfo "Unknown Window" icf) :=
  ⟨Or.inl rfl, missing_window_title_unknown obsNoWindow envOk ObsEvent.replayBufferSaved emptySt
      (Or.inl rfl)⟩

/-- Counterexample to C3 as stated: with a truthy non-denylisted executable
and failing icon extraction, the handler still records
`icon_file = "game.png"` — not the empty string — and no such PNG exists in
the icons directory afterwards. -/
theorem icon_file_claim_counterexample :
    envNoIcon.extractOk "D:\\games\\game.exe" "D:\\clips\\icons\\game.png" = false ∧
    (handle_replay_saved envNoIcon "D:\\clips\\a.mp4" "Title" (some "D:\\games\\game.exe")
        emptySt).state.extractCalls
      = [("D:\\games\\game.exe", "D:\\clips\\icons\\game.png")] ∧
    (handle_replay_saved envNoIcon "D:\\clips\\a.mp4" "Title" (some "D:\\games\\game.exe")
        emptySt).state.writes
      = [("D:\\clips\\.clip_metadata\\a.mp4.gameinfo", mkInfo "Title" "game.png")] ∧
    (handle_replay_saved envNoIcon "D:\\clips\\a.mp4" "Title" (some "D:\\games\\game.exe")
        emptySt).state.fs.files.lookup "D:\\clips\\icons\\game.png" = none ∧
    "game.png" ≠ "" :=
  ⟨rfl, rfl, rfl, rfl, by decide⟩

/-- Claim C3 (amended): in every record the handler writes, `icon_file` is
the executable-derived `<basename>.png` filename whenever an executable path
is available — whether or not extraction succeeded and the file exists — and
the empty string exactly when no executable path is available. -/
theorem icon_file_field_amended (env : Env) (r w : String) (e : Option String) (st : St)
    (p : String) (j : Json)
    (h : (p, j) ∈ (handle_replay_saved env r w e st).state.writes) :
    (p, j) ∈ st.writes ∨
    (truthy e = true ∧ j = mkInfo w (iconFilenameOf (e.getD ""))) ∨
    (truthy e = false ∧ j = mkInfo w "") := by
  rcases handle_state_writes env r w e st with hw | hw
  · rw [hw] at h
    exact Or.inl h
  · rw [hw] at h
    rcases List.mem_append.mp h with h | h
    · exact Or.inl h
    · have hj : j = mkInfo w (iconFileField e) :=
        (Prod.ext_iff.mp (List.mem_singleton.mp h)).2
      cases hte : truthy e with
      | true =>
        refine Or.inr (Or.inl ⟨rfl, ?_⟩)
        rw [hj]
        simp [iconFileField, hte]
      | false =>
        refine Or.inr (Or.inr ⟨rfl, ?_⟩)
        rw [hj]
        simp [iconFileField, hte]

/-- Witness for the amended C3: the concrete failing-extraction run keeps
`icon_file = "game.png"`. -/
theorem icon_file_field_amended_witness :
    (("D:\\clips\\.clip_metadata\\a.mp4.gameinfo", mkInfo "Title" "game.png") ∈
      (handle_replay_saved envNoIcon "D:\\clips\\a.mp4" "Title" (some "D:\\games\\game.exe")
        emptySt).state.writes) ∧
    ((("D:\\clips\\.clip_metadata\\a.mp4.gameinfo", mkInfo "Title" "game.png") ∈ emptySt.writes) ∨
      (truthy (some "D:\\games\\game.exe") = true ∧
        mkInfo "Title" "game.png" = mkInfo "Title" (iconFilenameOf "D:\\games\\game.exe")) ∨
      (truthy (some "D:\\games\\game.exe") = false ∧
        mkInfo "Title" "game.png" = mkInfo "Title" "")) := by
  have h : ("D:\\clips\\.clip_metadata\\a.mp4.gameinfo", mkInfo "Title" "game.png") ∈
      (handle_replay_saved envNoIcon "D:\\clips\\a.mp4" "Title" (some "D:\\games\\game.exe")
        emptySt).state.writes :=
    List.Mem.head _
  exact ⟨h, icon_file_field_amended envNoIcon "D:\\clips\\a.mp4" "Title"
      (some "D:\\games\\game.exe") emptySt _ _ h⟩

/-- Claim C4: with a truthy, non-denylisted executable whose icon file
already exists in the icons directory, the handler performs no icon
extraction and the cached icon's contents are unchanged. -/
theorem cached_icon_untouched (env : Env) (r w : String) (e : Option String) (st : St)
    (c : FileContent)
    (he : truthy e = true)
    (hd : ignoredExecutables_lower.contains (pyLower (basename (e.getD ""))) = false)
    (hc : st.fs.files.lookup (iconPath r (e.getD "")) = some c) :
    (handle_replay_saved env r w e st).state.extractCalls = st.extractCalls ∧
    (handle_replay_saved env r w e st).state.fs.files.lookup (iconPath r (e.getD ""))
      = some c := by
  rw [handle_state_eq]
  simp only [handle_body, he, hd, Bool.and_false, Bool.false_eq_true, if_false]
  split
  · next heq => exact ⟨rfl, hc⟩
  · next fs1 heq =>
      have hf1 : fs1.files = st.fs.files := makedirs_files _ _ _ _ heq
      split
      · next heq2 =>
          refine ⟨rfl, ?_⟩
          simp only [resultState]
          rw [hf1]
          exact hc
      · next fs2 heq2 =>
          have hf2 : fs2.files = st.fs.files := by
            rw [makedirs_files _ _ _ _ heq2, hf1]
          have hstep : iconStep env r e ⟨fs2, st.extractCalls, st.writes⟩
              = ⟨fs2, st.extractCalls, st.writes⟩ := by
            refine iconStep_cached env r e _ he ?_
            show isfile fs2 (iconPath r (e.getD "")) = true
            unfold isfile
            rw [hf2, hc]
            rfl
          rw [hstep]
          split
          · refine ⟨rfl, ?_⟩
            simp only [resultState]
            rw [hf2]
            exact hc
          · refine ⟨rfl, ?_⟩
            simp only [resultState, setFile]
            rw [lookup_cons_ne _ _ _ _ (Ne.symm (gameinfoPath_ne_iconPath r (e.getD ""))), hf2]
            exact hc

/-- Witness for C4 at a concrete pre-cached icon. -/
theorem cached_icon_untouched_witness :
    truthy (some "D:\\games\\game.exe") = true ∧
    ignoredExecutables_lower.contains (pyLower (basename "D:\\games\\game.exe")) = false ∧
    cachedSt.fs.files.lookup (iconPath "D:\\clips\\a.mp4" "D:\\games\\game.exe")
      = some (FileContent.png "previous") ∧
    ((handle_replay_saved envOk "D:\\clips\\a.mp4" "Title" (some "D:\\games\\game.exe")
        cachedSt).state.extractCalls = cachedSt.extractCalls ∧
      (handle_replay_saved envOk "D:\\clips\\a.mp4" "Title" (some "D:\\games\\game.exe")
        cachedSt).state.fs.files.lookup (iconPath "D:\\clips\\a.mp4" "D:\\games\\game.exe")
        = some (FileContent.png "previous")) :=
  ⟨rfl, rfl, rfl, cached_icon_untouched envOk "D:\\clips\\a.mp4" "Title"
      (some "D:\\games\\game.exe") cachedSt (FileContent.png "previous") rfl rfl rfl⟩

/-- Claim C7: with a truthy, non-denylisted executable, every icon extraction
the handler performs targets the icons directory sibling to the recording,
joined with `<exe-basename>.png` (the executable's file name with its
extension removed), and every record written carries exactly that filename
in `icon_file`. -/
theorem icon_path_and_field (env : Env) (r w : String) (e : Option String) (st : St)
    (he : truthy e = true)
    (hd : ignoredExecutables_lower.contains (pyLower (basename (e.getD ""))) = false) :
    (∀ x out, (x, out) ∈ (handle_replay_saved env r w e st).state.extractCalls →
      (x, out) ∈ st.extractCalls ∨
      (x = e.getD "" ∧
        out = ntJoin (ntJoin (dirname r) "icons")
          (splitextStem (basename (e.getD "")) ++ ".png"))) ∧
    (∀ p j, (p, j) ∈ (handle_replay_saved env r w e st).state.writes →
      (p, j) ∈ st.writes ∨
      j = mkInfo w (splitextStem (basename (e.getD "")) ++ ".png")) := by
  constructor
  · intro x out hx
    rcases handle_state_calls env r w e st with hcal | ⟨_, hcal⟩
    · rw [hcal] at hx
      exact Or.inl hx
    · rw [hcal] at hx
      rcases List.mem_append.mp hx with hx | hx
      · exact Or.inl hx
      · have hxx := List.mem_singleton.mp hx
        exact Or.inr ⟨(Prod.ext_iff.mp hxx).1, (Prod.ext_iff.mp hxx).2⟩
  · intro p j hp
    rcases handle_state_writes env r w e st with hww | hww
    · rw [hww] at hp
      exact Or.inl hp
    · rw [hww] at hp
      rcases List.mem_append.mp hp with hp | hp
      · exact Or.inl hp
      · refine Or.inr ?_
        have hj : j = mkInfo w (iconFileField e) :=
          (Prod.ext_iff.mp (List.mem_singleton.mp hp)).2
        rw [hj]
        simp [iconFileField, iconFilenameOf, he]

/-- Witness for C7 on a concrete uncached run that extracts an icon. -/
theorem icon_path_and_field_witness :
    truthy (some "D:\\games\\game.exe") = true ∧
    (∀ x out, (x, out) ∈ (handle_replay_saved envOk "D:\\clips\\a.mp4" "Title"
        (some "D:\\games\\game.exe") emptySt).state.extractCalls →
      (x, out) ∈ emptySt.extractCalls ∨
      (x = (some "D:\\games\\game.exe").getD "" ∧
        out = ntJoin (ntJoin (dirname "D:\\clips\\a.mp4") "icons")
          (splitextStem (basename ((some "D:\\games\\game.exe").getD "")) ++ ".png"))) ∧
    (∀ p j, (p, j) ∈ (handle_replay_saved envOk "D:\\clips\\a.mp4" "Title"
        (some "D:\\games\\game.exe") emptySt).state.writes →
      (p, j) ∈ emptySt.writes ∨
      j = mkInfo "Title" (splitextStem (basename ((some "D:\\games\\game.exe").getD "")) ++ ".png")) :=
  ⟨rfl,
    (icon_path_and_field envOk "D:\\clips\\a.mp4" "Title" (some "D:\\games\\game.exe")
      emptySt rfl rfl).1,
    (icon_path_and_field envOk "D:\\clips\\a.mp4" "Title" (some "D:\\games\\game.exe")
      emptySt rfl rfl).2⟩

/-- Claim C8: directory creation is idempotent: when either target directory
already exists and the OS does not fault on the two paths, both `makedirs`
calls succeed, every pre-existing directory survives the run, and a second
handler run on the same recording leaves exactly the directories of the
first. -/
theorem dir_creation_idempotent (env : Env) (r w : String) (e : Option String) (st : St)
    (hio : env.osFault (iconsDir r) = false)
    (hmo : env.osFault (metadataDir r) = false)
    (hex : iconsDir r ∈ st.fs.dirs ∨ metadataDir r ∈ st.fs.dirs) :
    (∃ fs1, makedirs env (iconsDir r) st.fs = .ok fs1 ∧
      ∃ fs2, makedirs env (metadataDir r) fs1 = .ok fs2) ∧
    (∀ d ∈ st.fs.dirs, d ∈ (handle_replay_saved env r w e st).state.fs.dirs) ∧
    (handle_replay_saved env r w e
        (handle_replay_saved env r w e st).state).state.fs.dirs
      = (handle_replay_saved env r w e st).state.fs.dirs := by
  refine ⟨⟨_, makedirs_noFault env _ st.fs hio, _, makedirs_noFault env _ _ hmo⟩, ?_, ?_⟩
  · intro d hd
    rw [handle_state_dirs env r w e st hio hmo]
    split
    · exact hd
    · exact addDir_mem_mono _ _ _ (addDir_mem_mono _ _ _ hd)
  · rw [handle_state_dirs env r w e _ hio hmo, handle_state_dirs env r w e st hio hmo]
    split
    · rfl
    · have hI : iconsDir r ∈ addDir (metadataDir r) (addDir (iconsDir r) st.fs.dirs) :=
        addDir_mem_mono _ _ _ (addDir_mem_self _ _)
      have hM : metadataDir r ∈ addDir (metadataDir r) (addDir (iconsDir r) st.fs.dirs) :=
        addDir_mem_self _ _
      rw [addDir_eq_of_mem _ _ hI, addDir_eq_of_mem _ _ hM]

/-- Witness for C8 with the icons directory pre-existing. -/
theorem dir_creation_idempotent_witness :
    (iconsDir "D:\\clips\\a.mp4" ∈ dirSt.fs.dirs ∨
      metadataDir "D:\\clips\\a.mp4" ∈ dirSt.fs.dirs) ∧
    ((∃ fs1, makedirs envOk (iconsDir "D:\\clips\\a.mp4") dirSt.fs = .ok fs1 ∧
        ∃ fs2, makedirs envOk (metadataDir "D:\\clips\\a.mp4") fs1 = .ok fs2) ∧
      (∀ d ∈ dirSt.fs.dirs, d ∈ (handle_replay_saved envOk "D:\\clips\\a.mp4" "Title" none
          dirSt).state.fs.dirs) ∧
      (handle_replay_saved envOk "D:\\clips\\a.mp4" "Title" none
          (handle_replay_saved envOk "D:\\clips\\a.mp4" "Title" none dirSt).state).state.fs.dirs
        = (handle_replay_saved envOk "D:\\clips\\a.mp4" "Title" none dirSt).state.fs.dirs) :=
  ⟨Or.inl (by decide),
    dir_creation_idempotent envOk "D:\\clips\\a.mp4" "Title" none dirSt rfl rfl
      (Or.inl (by decide))⟩

end ReplayGameInfo
